import Mathlib

/-!
Verification of the inventory-app domain core (src/src of the repository)
against its natural-language specification.

Shallow embedding conventions:
* Python `int` columns become `Int`; `float` columns become `ℚ` (exact
  rationals model the decimal values exercised by the code and tests);
  `date` columns become `Int` (an ordinal day, only `≤`/`<` are used);
  nullable columns become `Option _`.
* Python `round` uses round-half-to-even; the SQLite
  `round()` used by the query-engine expressions rounds half away from
  zero.  Both are modelled exactly.
* Fallible Python code (raising exceptions) is modelled with `Except`.
-/

/-- Python `round(q)`: round half to even, from `builtins.round`. -/
def pyRoundInt (q : ℚ) : ℤ :=
  let f := ⌊q⌋
  let r := q - (f : ℚ)
  if r < 1/2 then f
  else if 1/2 < r then f + 1
  else if f % 2 = 0 then f else f + 1

/-- Python `round(q, 2)`: round half to even at two decimal places. -/
def pyRound2 (q : ℚ) : ℚ :=
  (pyRoundInt (q * 100) : ℚ) / 100

/-- SQLite `round(q)`: round half away from zero, used by the SQL
expressions of the hybrid properties. -/
def sqlRoundInt (q : ℚ) : ℤ :=
  if 0 ≤ q then ⌊q + 1/2⌋ else ⌈q - 1/2⌉

/-- SQLite `round(q, 2)`. -/
def sqlRound2 (q : ℚ) : ℚ :=
  (sqlRoundInt (q * 100) : ℚ) / 100

/-! ## Enumerated domain vocabulary (src/src/item_enums.py) -/

/-- The `Status` enum of item_enums.py. -/
inductive Status where
  | CLOSED
  | STORAGE
  | LISTED
  | VAULT
  | SUBMITTED
  | ORDER
deriving Repr, DecidableEq

/-- The stable integer encoding of `Status` (the `.value` of each member). -/
def Status.toInt : Status → Int
  | .CLOSED => 0
  | .STORAGE => 1
  | .LISTED => 2
  | .VAULT => 3
  | .SUBMITTED => 4
  | .ORDER => 5

/-- Lookup `Status(n)`: look a member up from its integer code; Python raises
`ValueError` on an unknown code, modelled by `none`. -/
def Status.fromInt : Int → Option Status
  | 0 => some .CLOSED
  | 1 => some .STORAGE
  | 2 => some .LISTED
  | 3 => some .VAULT
  | 4 => some .SUBMITTED
  | 5 => some .ORDER
  | _ => none

/-- The table `Status.required_fields` of item_enums.py. -/
def Status.required_fields : Status → List String
  | .CLOSED => ["sale_total", "sale_date", "shipping", "sale_fee", "usd_to_jpy_rate"]
  | .STORAGE => []
  | .LISTED => ["list_price", "list_type", "list_date"]
  | .VAULT => []
  | .SUBMITTED => []
  | .ORDER => []

/-- The `listing_fields` local of `Status.required_to_be_null`. -/
def listing_fields : List String := ["list_price", "list_date"]

/-- The `sale_fields` local of `Status.required_to_be_null`. -/
def sale_fields : List String :=
  ["sale_total", "sale_date", "shipping", "sale_fee", "usd_to_jpy_rate"]

/-- The table `Status.required_to_be_null` of item_enums.py. -/
def Status.required_to_be_null : Status → List String
  | .CLOSED => []
  | .STORAGE => listing_fields ++ sale_fields
  | .LISTED => sale_fields
  | .VAULT => listing_fields ++ sale_fields
  | .SUBMITTED => listing_fields ++ sale_fields
  | .ORDER => listing_fields ++ sale_fields

/-- The `Intent` enum of item_enums.py. -/
inductive Intent where
  | KEEP
  | SELL
  | GRADE
  | CRACK
  | TBD
deriving Repr, DecidableEq

/-- The stable integer encoding of `Intent`. -/
def Intent.toInt : Intent → Int
  | .KEEP => 0
  | .SELL => 1
  | .GRADE => 2
  | .CRACK => 3
  | .TBD => 4

/-- Lookup `Intent(n)`; `none` models the `ValueError` of an unknown code. -/
def Intent.fromInt : Int → Option Intent
  | 0 => some .KEEP
  | 1 => some .SELL
  | 2 => some .GRADE
  | 3 => some .CRACK
  | 4 => some .TBD
  | _ => none

/-- The table `Intent.allowed_statuses` of item_enums.py (`all_ok` is the local of
the source). -/
def Intent.allowed_statuses : Intent → List Status
  | .KEEP => [.STORAGE, .VAULT, .ORDER]
  | .SELL => [.STORAGE, .VAULT, .ORDER] ++ [.CLOSED, .LISTED]
  | .GRADE => [.STORAGE, .VAULT, .ORDER] ++ [.SUBMITTED]
  | .CRACK => [.STORAGE, .VAULT, .ORDER]
  | .TBD => [.STORAGE, .VAULT, .ORDER]

/-- The `Qualifier` enum of item_enums.py. -/
inductive Qualifier where
  | UNLIMITED
  | FIRST_EDITION
  | NON_HOLO
  | REVERSE_HOLO
  | SPECIAL_REVERSE_HOLO
  | CRYSTAL
  | PRIME
  | BREAK
  | SUPER_RARE
  | HYPER_RARE
  | CHARACTER_RARE
  | ART_RARE
  | SPECIAL_ART_RARE
deriving Repr, DecidableEq

/-- The `ListingType` enum of item_enums.py. -/
inductive ListingType where
  | NO_LIST
  | FIXED
  | AUCTION
deriving Repr, DecidableEq

/-- The stable integer encoding of `ListingType`. -/
def ListingType.toInt : ListingType → Int
  | .NO_LIST => 0
  | .FIXED => 1
  | .AUCTION => 2

/-- The code `GradingCompany.RAW.value` of item_enums.py (RAW = 0, PSA = 1, CGC = 2,
BGS = 3; the grading-company codes are carried as plain `Int`). -/
def GradingCompanyRAW : Int := 0

/-! ## Stored data model (src/src/models.py)

`Item`, `Submission` and `GradingRecord` mirror the mapped columns of
models.py.  Enum-typed columns are stored as their integer codes, exactly
as the `Mapped[int] = mapped_column(Integer)` declarations of the source
(`qualifiers` is the one enum-list column, `EnumList(Qualifier)`). -/

/-- The `grading_record` table (models.py, class GradingRecord). -/
structure GradingRecord where
  id : Nat
  item_id : Nat
  submission_number : Nat
  grading_fee : Option Int
  grade : Option ℚ
  cert : Option Int
  is_cracked : Bool
deriving Repr, DecidableEq

/-- The `submission` table (models.py, class Submission). -/
structure Submission where
  submission_number : Nat
  submission_company : Int
  submission_date : Int
  return_date : Option Int := none
  break_even_date : Option Int := none
deriving Repr, DecidableEq

/-- The `items` table (models.py, class Item): stored columns only; the
derived hybrid properties are functions below taking the loaded
grading records (the `submissions` relationship) as an argument. -/
structure Item where
  id : Nat
  name : String
  set_name : String
  category : Int
  language : Int
  qualifiers : List Qualifier
  details : Option String := none
  purchase_date : Int
  purchase_price : Int
  status : Int
  intent : Int
  import_fee : Int
  purchase_grading_company : Int
  purchase_cert : Option Int := none
  purchase_grade : Option ℚ := none
  list_price : Option ℚ := none
  list_type : Int
  list_date : Option Int := none
  sale_total : Option ℚ := none
  sale_date : Option Int := none
  shipping : Option ℚ := none
  sale_fee : Option ℚ := none
  usd_to_jpy_rate : Option ℚ := none
  group_discount : Bool := false
  object_variant : Int
  audit_target : Bool := false
  cracked_from_purchase : Bool := false
deriving Repr, DecidableEq

/-! ## Derived-value engine, in-memory side (models.py hybrid properties)

Each hybrid property reads `self.submissions`, the loaded grading
records of the item; the functions below take that list as the `recs` argument.
`Item.grading_company` additionally resolves `record.submission` through
the submission table `subs`. -/

/-- The sum `sum(sub.grading_fee for sub in self.submissions if
sub.grading_fee is not None)` — models.py, `Item.total_grading_fees` (in-memory). -/
def Item.total_grading_fees (recs : List GradingRecord) : Int :=
  (recs.filterMap (·.grading_fee)).sum

/-- models.py `Item.total_cost` (in-memory). -/
def Item.total_cost (it : Item) (recs : List GradingRecord) : Int :=
  it.purchase_price + Item.total_grading_fees recs + it.import_fee

/-- The call `max(self.submissions, key=lambda s: s.submission_number,
default=None)`: a left fold that keeps the current maximum on ties,
exactly like Python `max` (first maximal element wins). -/
def latestStep : Option GradingRecord → GradingRecord → Option GradingRecord
  | none, r => some r
  | some m, r =>
      if m.submission_number < r.submission_number then some r else some m

/-- The `latest_submission` local used by the grading_company / grade /
cert hybrid properties of models.py. -/
def latestSubmission (recs : List GradingRecord) : Option GradingRecord :=
  recs.foldl latestStep none

/-- models.py `Item.grading_company` (in-memory).  The
`latest_submission.submission.submission_company` relationship access is
modelled as a lookup in the submission table; a missing parent row (a
foreign-key violation that cannot occur in a consistent store) yields
`none`. -/
def Item.grading_company (it : Item) (recs : List GradingRecord)
    (subs : List Submission) : Option Int :=
  match latestSubmission recs with
  | none =>
      if it.cracked_from_purchase then some GradingCompanyRAW
      else some it.purchase_grading_company
  | some latest =>
      if latest.is_cracked then some GradingCompanyRAW
      else (subs.find? (fun s => s.submission_number == latest.submission_number)).map
        (·.submission_company)

/-- models.py `Item.cert` (in-memory). -/
def Item.cert (it : Item) (recs : List GradingRecord) : Option Int :=
  match latestSubmission recs with
  | none => if it.cracked_from_purchase then none else it.purchase_cert
  | some latest => if latest.is_cracked then none else latest.cert

/-- models.py `Item.grade` (in-memory). -/
def Item.grade (it : Item) (recs : List GradingRecord) : Option ℚ :=
  match latestSubmission recs with
  | none => if it.cracked_from_purchase then none else it.purchase_grade
  | some latest => if latest.is_cracked then none else latest.grade

/-- models.py `Item.total_fees` (in-memory): `round(shipping + sale_fee,
2)`, `None` when either input is `None`. -/
def Item.total_fees (it : Item) : Option ℚ :=
  match it.shipping, it.sale_fee with
  | some s, some f => some (pyRound2 (s + f))
  | _, _ => none

/-- models.py `Item.return_usd` (in-memory). -/
def Item.return_usd (it : Item) : Option ℚ :=
  match it.sale_total, Item.total_fees it with
  | some st, some tf => some (pyRound2 (st - tf))
  | _, _ => none

/-- models.py `Item.return_jpy` (in-memory): `round(return_usd *
usd_to_jpy_rate)`. -/
def Item.return_jpy (it : Item) : Option Int :=
  match Item.return_usd it, it.usd_to_jpy_rate with
  | some ru, some rate => some (pyRoundInt (ru * rate))
  | _, _ => none

/-- models.py `Item.net_jpy` (in-memory): `round(return_jpy -
total_cost)`; the argument is an integer, so the `round` is the
identity. -/
def Item.net_jpy (it : Item) (recs : List GradingRecord) : Option Int :=
  match Item.return_jpy it with
  | none => none
  | some rj => some (rj - Item.total_cost it recs)

/-- models.py `Item.net_percent` (in-memory): `None` when `net_jpy` is
`None`, `0.0` when `total_cost == 0`, otherwise `round(100 * net_jpy /
total_cost, 2)`. -/
def Item.net_percent (it : Item) (recs : List GradingRecord) : Option ℚ :=
  match Item.net_jpy it recs with
  | none => none
  | some nj =>
      if Item.total_cost it recs = 0 then some 0
      else some (pyRound2 (100 * (nj : ℚ) / (Item.total_cost it recs : ℚ)))

/-! ## Derived-value engine, query side (models.py `.expression` variants)

SQL `NULL` is `none`; arithmetic over `NULL` is `NULL`; a comparison with
`NULL` is not true.  `SUM` over zero rows (or only `NULL` values) is
`NULL`. -/

/-- The subquery `select(func.sum(GradingRecord.grading_fee)).where(...)`
of models.py:
`Item.total_grading_fees` (expression).  SQL `SUM` skips `NULL` values
and is itself `NULL` when no value remains. -/
def ItemSql.total_grading_fees (recs : List GradingRecord) : Option Int :=
  let fees := recs.filterMap (·.grading_fee)
  if fees.isEmpty then none else some fees.sum

/-- models.py `Item.total_cost` (expression): `purchase_price +
total_grading_fees + import_fee`, with SQL `NULL` propagation. -/
def ItemSql.total_cost (it : Item) (recs : List GradingRecord) : Option Int :=
  (ItemSql.total_grading_fees recs).map
    (fun s => it.purchase_price + s + it.import_fee)

/-- models.py `Item.total_fees` (expression). -/
def ItemSql.total_fees (it : Item) : Option ℚ :=
  match it.shipping, it.sale_fee with
  | some s, some f => some (sqlRound2 (s + f))
  | _, _ => none

/-- models.py `Item.return_usd` (expression). -/
def ItemSql.return_usd (it : Item) : Option ℚ :=
  match it.sale_total, ItemSql.total_fees it with
  | some st, some tf => some (sqlRound2 (st - tf))
  | _, _ => none

/-- models.py `Item.return_jpy` (expression): `cast(round(return_usd *
usd_to_jpy_rate, 0), Integer)`. -/
def ItemSql.return_jpy (it : Item) : Option Int :=
  match ItemSql.return_usd it, it.usd_to_jpy_rate with
  | some ru, some rate => some (sqlRoundInt (ru * rate))
  | _, _ => none

/-- models.py `Item.net_jpy` (expression): guarded only on `return_jpy`;
`return_jpy - total_cost` is still `NULL` when `total_cost` is `NULL`. -/
def ItemSql.net_jpy (it : Item) (recs : List GradingRecord) : Option Int :=
  match ItemSql.return_jpy it with
  | none => none
  | some rj => (ItemSql.total_cost it recs).map (fun tc => rj - tc)

/-- models.py `Item.net_percent` (expression):
`case((net_jpy is NULL, NULL), (total_cost != 0, round(net_jpy /
total_cost, 2)), else 0.0)`.  Note that, unlike the in-memory property,
the expression has no `100 *` factor; the division is modelled exactly
(SQLite would in fact integer-divide here, which diverges even more).
When `total_cost` is `NULL` the comparison `total_cost != 0` is not
true, so the `case` falls through to `0.0`. -/
def ItemSql.net_percent (it : Item) (recs : List GradingRecord) : Option ℚ :=
  match ItemSql.net_jpy it recs with
  | none => none
  | some nj =>
      match ItemSql.total_cost it recs with
      | none => some 0
      | some tc =>
          if tc ≠ 0 then some (sqlRound2 ((nj : ℚ) / (tc : ℚ)))
          else some 0

/-- models.py `Item.grade` (expression): `latest_grade` is the grade of
the newest record (`NULL` when there is no record or its grade is
`NULL`); when it is `NULL` the expression falls back to
`purchase_grade` (or `NULL` under `cracked_from_purchase`). -/
def ItemSql.grade (it : Item) (recs : List GradingRecord) : Option ℚ :=
  match (latestSubmission recs).bind (·.grade) with
  | none => if it.cracked_from_purchase then none else it.purchase_grade
  | some g =>
      if ((latestSubmission recs).map (·.is_cracked)).getD false then none
      else some g

/-- models.py `Item.cert` (expression), same shape as `ItemSql.grade`. -/
def ItemSql.cert (it : Item) (recs : List GradingRecord) : Option Int :=
  match (latestSubmission recs).bind (·.cert) with
  | none => if it.cracked_from_purchase then none else it.purchase_cert
  | some c =>
      if ((latestSubmission recs).map (·.is_cracked)).getD false then none
      else some c

/-! ## Validation engine (src/src/schemas.py, class ItemBase)

`ItemBase` is the pydantic candidate item; its fields are already typed
(enum members, not raw strings — the string-coercion field validators of
the form layer sit upstream).  The after-mode `model_validator`
methods run in definition order and the first `ValueError` aborts
validation. -/

/-- The pydantic `ItemBase` candidate of schemas.py. -/
structure ItemBase where
  name : String
  set_name : String
  category : Int
  language : Int
  qualifiers : List Qualifier
  details : Option String := none
  purchase_date : Int
  purchase_price : Int
  status : Status
  intent : Intent
  import_fee : Int
  purchase_grading_company : Int
  purchase_cert : Option Int := none
  purchase_grade : Option ℚ := none
  list_price : Option ℚ := none
  list_type : ListingType
  list_date : Option Int := none
  sale_total : Option ℚ := none
  sale_date : Option Int := none
  shipping : Option ℚ := none
  sale_fee : Option ℚ := none
  usd_to_jpy_rate : Option ℚ := none
  group_discount : Bool := false
  object_variant : Int
  audit_target : Bool := false
  cracked_from_purchase : Bool := false
deriving Repr, DecidableEq

/-- The test `getattr(self, f) is None` for the field names consulted by the
status policy tables (all of them name nullable columns except
`list_type`, a non-nullable enum that is never `None`). -/
def ItemBase.fieldIsNone (c : ItemBase) : String → Bool
  | "list_price" => c.list_price.isNone
  | "list_type" => false
  | "list_date" => c.list_date.isNone
  | "sale_total" => c.sale_total.isNone
  | "sale_date" => c.sale_date.isNone
  | "shipping" => c.shipping.isNone
  | "sale_fee" => c.sale_fee.isNone
  | "usd_to_jpy_rate" => c.usd_to_jpy_rate.isNone
  | _ => false

/-- schemas.py `ItemBase.list_date_not_before_purchase_date`. -/
def ItemBase.list_date_not_before_purchase_date (c : ItemBase) : Except String Unit :=
  match c.list_date with
  | some ld =>
      if ld < c.purchase_date then
        .error "Listing date cannot be before purchase date"
      else .ok ()
  | none => .ok ()

/-- schemas.py `ItemBase.sale_date_not_before_list_date`. -/
def ItemBase.sale_date_not_before_list_date (c : ItemBase) : Except String Unit :=
  match c.list_date, c.sale_date with
  | some ld, some sd =>
      if sd < ld then .error "Sale date cannot be before listing date"
      else .ok ()
  | _, _ => .ok ()

/-- schemas.py `ItemBase.check_required_fields_based_on_status`. -/
def ItemBase.check_required_fields_based_on_status (c : ItemBase) : Except String Unit :=
  let missing := c.status.required_fields.filter (fun f => c.fieldIsNone f)
  if missing.isEmpty then .ok ()
  else .error ("Status requires the following missing fields: "
    ++ String.intercalate ", " missing)

/-- schemas.py `ItemBase.check_required_null_fields_based_on_status`. -/
def ItemBase.check_required_null_fields_based_on_status (c : ItemBase) : Except String Unit :=
  let not_null := c.status.required_to_be_null.filter (fun f => !(c.fieldIsNone f))
  if not_null.isEmpty then .ok ()
  else .error ("Status requires the following fields to be null: "
    ++ String.intercalate ", " not_null)

/-- schemas.py `ItemBase.appropriate_listing_type`. -/
def ItemBase.appropriate_listing_type (c : ItemBase) : Except String Unit :=
  if c.status = .LISTED ∨ c.status = .CLOSED then
    if c.list_type = .NO_LIST then
      .error "Item cannot have list_type of NO_LIST if listed or sold"
    else .ok ()
  else
    if c.list_type ≠ .NO_LIST then
      .error "Item cannot have a list_type other than NO_LIST if not listed or sold"
    else .ok ()

/-- schemas.py `ItemBase.appropriate_group_discount`. -/
def ItemBase.appropriate_group_discount (c : ItemBase) : Except String Unit :=
  if c.group_discount ∧ c.status ≠ .CLOSED then
    .error "Group discount cannot be assigned to an unsold item"
  else .ok ()

/-- schemas.py `ItemBase.appropriate_audit_target`. -/
def ItemBase.appropriate_audit_target (c : ItemBase) : Except String Unit :=
  if c.audit_target ∧ (c.status = .CLOSED ∨ c.status = .LISTED) then
    .error "Item assigned as an audit target can not be listed or closed"
  else .ok ()

/-- The full after-mode `model_validator` pipeline of `ItemBase`, in
source order, failing on the first violation.  There is no
intent-versus-status compatibility validator in this pipeline. -/
def ItemBase.validate (c : ItemBase) : Except String Unit := do
  c.list_date_not_before_purchase_date
  c.sale_date_not_before_list_date
  c.check_required_fields_based_on_status
  c.check_required_null_fields_based_on_status
  c.appropriate_listing_type
  c.appropriate_group_discount
  c.appropriate_audit_target

/-- The conversion `ItemCreate.to_model_kwargs` followed by `Item(**item_data)` in
`crud.create_item`: the enum members are written through their integer
codes, the store assigns the id. -/
def ItemBase.toItem (c : ItemBase) (iid : Nat) : Item :=
  { id := iid
    name := c.name
    set_name := c.set_name
    category := c.category
    language := c.language
    qualifiers := c.qualifiers
    details := c.details
    purchase_date := c.purchase_date
    purchase_price := c.purchase_price
    status := c.status.toInt
    intent := c.intent.toInt
    import_fee := c.import_fee
    purchase_grading_company := c.purchase_grading_company
    purchase_cert := c.purchase_cert
    purchase_grade := c.purchase_grade
    list_price := c.list_price
    list_type := c.list_type.toInt
    list_date := c.list_date
    sale_total := c.sale_total
    sale_date := c.sale_date
    shipping := c.shipping
    sale_fee := c.sale_fee
    usd_to_jpy_rate := c.usd_to_jpy_rate
    group_discount := c.group_discount
    object_variant := c.object_variant
    audit_target := c.audit_target
    cracked_from_purchase := c.cracked_from_purchase }

/-- The pydantic `ItemUpdate` of schemas.py.  `none` models a field left
unset (and therefore excluded by `model_dump(exclude_unset=True)`);
`qualifiers` defaults to the empty list.  The updates built inside
crud.py only ever pass explicit values, so the unset/set-to-None
distinction of pydantic is not exercised and is not modelled. -/
structure ItemUpdate where
  name : Option String := none
  set_name : Option String := none
  category : Option Int := none
  language : Option Int := none
  qualifiers : List Qualifier := []
  details : Option String := none
  purchase_date : Option Int := none
  purchase_price : Option Int := none
  status : Option Status := none
  intent : Option Intent := none
  import_fee : Option Int := none
  purchase_grading_company : Option Int := none
  purchase_grade : Option ℚ := none
  purchase_cert : Option Int := none
  list_price : Option ℚ := none
  list_type : Option ListingType := none
  list_date : Option Int := none
  sale_total : Option ℚ := none
  sale_date : Option Int := none
  shipping : Option ℚ := none
  sale_fee : Option ℚ := none
  usd_to_jpy_rate : Option ℚ := none
  group_discount : Option Bool := none
  object_variant : Option Int := none
  audit_target : Option Bool := none
  cracked_from_purchase : Option Bool := none
deriving Repr, DecidableEq

/-- The pydantic `SubmissionCreate` of schemas.py. -/
structure SubmissionCreate where
  submission_number : Nat
  submission_company : Int
  submission_date : Int
  return_date : Option Int := none
  break_even_date : Option Int := none
deriving Repr, DecidableEq

/-- The conversion `SubmissionCreate.to_model_kwargs` followed by `Submission(**data)`
in `crud.create_submission`. -/
def SubmissionCreate.toSubmission (s : SubmissionCreate) : Submission :=
  { submission_number := s.submission_number
    submission_company := s.submission_company
    submission_date := s.submission_date
    return_date := s.return_date
    break_even_date := s.break_even_date }

/-- The pydantic `GradingRecordCreate` of schemas.py (no id: the store
assigns it). -/
structure GradingRecordCreate where
  item_id : Nat
  submission_number : Nat
  grading_fee : Option Int := none
  grade : Option ℚ := none
  cert : Option Int := none
  is_cracked : Bool := false
deriving Repr, DecidableEq

/-- The pydantic `ItemSearch` of schemas.py: a sparse set of optional
filters.  `none` models an unset (or `None`-valued) filter, which
`build_search_filters` skips. -/
structure ItemSearch where
  name : Option String := none
  set_name : Option String := none
  category : Option Int := none
  language : Option Int := none
  qualifiers : List Qualifier := []
  details : Option String := none
  purchase_date_min : Option Int := none
  purchase_date_max : Option Int := none
  purchase_price_min : Option Int := none
  purchase_price_max : Option Int := none
  status : Option Int := none
  intent : Option Int := none
  cracked_from : Option Int := none
  grading_company : Option Int := none
  grade : Option ℚ := none
  cert : Option Int := none
  list_type : Option Int := none
  list_date_min : Option Int := none
  list_date_max : Option Int := none
  sale_total_min : Option ℚ := none
  sale_total_max : Option ℚ := none
  sale_date_min : Option Int := none
  sale_date_max : Option Int := none
  group_discount : Option Bool := none
  object_variant : Option Int := none
  audit_target : Option Bool := none
  total_cost_min : Option Int := none
  total_cost_max : Option Int := none
  return_jpy_min : Option Int := none
  return_jpy_max : Option Int := none
  net_jpy_min : Option Int := none
  net_jpy_max : Option Int := none
  net_percent_min : Option ℚ := none
  net_percent_max : Option ℚ := none
deriving Repr, DecidableEq

/-! ## validators.py -/

/-- Exceptions surfaced by the repository layer. -/
inductive PyExc where
  | valueError : String → PyExc
  | attributeError : String → PyExc
deriving Repr, DecidableEq

/-- Models the Python comparison between the raw integer stored in an
enum-coded `Item` column (for example `item.intent`, a plain `int`) and
an enum member (for example `Intent.GRADE`).  The enums of item_enums.py
derive from plain `enum.Enum`, whose equality is object identity, so an
`int` never compares equal to a member, whatever its value: the
comparison is constantly false.  (`crud.edit_item`, by contrast, first
converts with `Intent(item.intent)` before comparing members.) -/
def pyIntEnumEq {α : Type} (_stored : Int) (_member : α) : Bool := false

/-- validators.py `check_intent`: raises whenever `item.intent !=
desired`.  Under the identity semantics of `pyIntEnumEq` the branch is
always taken, and building the message then evaluates
`item.intent.name` on an `int`, so the raised exception is an
`AttributeError`, not the intended `ValueError`. -/
def check_intent (item : Item) (desired : Intent) : Except PyExc Unit :=
  if pyIntEnumEq item.intent desired then .ok ()
  else .error (.attributeError "int object has no attribute name")

/-- validators.py `check_status`; same shape as `check_intent`. -/
def check_status (item : Item) (desired : Status) : Except PyExc Unit :=
  if pyIntEnumEq item.status desired then .ok ()
  else .error (.attributeError "int object has no attribute name")

/-- validators.py `check_valid_intent_or_status_update`: validates the
resulting (intent, status) pair of an update, resolving an unsupplied
side against the current value of the item. -/
def check_valid_intent_or_status_update (current_intent : Intent)
    (current_status : Status) (update_intent : Option Intent)
    (update_status : Option Status) : Except String Unit :=
  match update_intent, update_status with
  | none, none => .ok ()
  | some ui, none =>
      if current_status ∈ ui.allowed_statuses then .ok ()
      else .error "Cannot update item status and intent combination"
  | none, some us =>
      if us ∈ current_intent.allowed_statuses then .ok ()
      else .error "Cannot update item status and intent combination"
  | some ui, some us =>
      if us ∈ ui.allowed_statuses then .ok ()
      else .error "Cannot update item status and intent combination"

/-! ## Repository layer (src/src/crud.py)

The backing store is a record store over the three tables.  Each crud
function runs in its own transactional unit of work; a raised exception
rolls the transaction back, so an `Except.error` outcome leaves the
store unchanged. -/

/-- The three tables of the backing store. -/
structure DBState where
  items : List Item
  submissions : List Submission
  records : List GradingRecord
deriving Repr, DecidableEq

/-- crud.py `get_item`: `db.query(Item).filter(Item.id == item_id).first()`. -/
def get_item (db : DBState) (item_id : Nat) : Option Item :=
  db.items.find? (fun it => it.id == item_id)

/-- The next primary key the store assigns to an item. -/
def nextItemId (db : DBState) : Nat :=
  db.items.foldl (fun m it => max m it.id) 0 + 1

/-- The next primary key the store assigns to a grading record. -/
def nextRecordId (db : DBState) : Nat :=
  db.records.foldl (fun m r => max m r.id) 0 + 1

/-- crud.py `create_item`: the candidate has already passed `ItemBase`
validation (pydantic validates at construction); `create_item` itself
performs no further check and persists the row. -/
def create_item (db : DBState) (item : ItemBase) : DBState × Item :=
  let db_item := item.toItem (nextItemId db)
  ({ db with items := db.items ++ [db_item] }, db_item)

/-- Overwrite a nullable column when the update supplies a value, keep
the current value when the field is unset. -/
def updOpt {α : Type} (u : Option α) (cur : Option α) : Option α :=
  match u with
  | some v => some v
  | none => cur

/-- crud.py `perform_item_update`: applies `model_dump(exclude_unset=
True)` of the update onto the item — and always writes `qualifiers`,
even when it is the default empty list (the source comment: always add
qualifiers even if it is an empty list). -/
def perform_item_update (item : Item) (item_update : ItemUpdate) : Item :=
  { item with
    name := item_update.name.getD item.name
    set_name := item_update.set_name.getD item.set_name
    category := item_update.category.getD item.category
    language := item_update.language.getD item.language
    qualifiers := item_update.qualifiers
    details := updOpt item_update.details item.details
    purchase_date := item_update.purchase_date.getD item.purchase_date
    purchase_price := item_update.purchase_price.getD item.purchase_price
    status := (item_update.status.map Status.toInt).getD item.status
    intent := (item_update.intent.map Intent.toInt).getD item.intent
    import_fee := item_update.import_fee.getD item.import_fee
    purchase_grading_company :=
      item_update.purchase_grading_company.getD item.purchase_grading_company
    purchase_grade := updOpt item_update.purchase_grade item.purchase_grade
    purchase_cert := updOpt item_update.purchase_cert item.purchase_cert
    list_price := updOpt item_update.list_price item.list_price
    list_type := (item_update.list_type.map ListingType.toInt).getD item.list_type
    list_date := updOpt item_update.list_date item.list_date
    sale_total := updOpt item_update.sale_total item.sale_total
    sale_date := updOpt item_update.sale_date item.sale_date
    shipping := updOpt item_update.shipping item.shipping
    sale_fee := updOpt item_update.sale_fee item.sale_fee
    usd_to_jpy_rate := updOpt item_update.usd_to_jpy_rate item.usd_to_jpy_rate
    group_discount := item_update.group_discount.getD item.group_discount
    object_variant := item_update.object_variant.getD item.object_variant
    audit_target := item_update.audit_target.getD item.audit_target
    cracked_from_purchase :=
      item_update.cracked_from_purchase.getD item.cracked_from_purchase }

/-- Replace the row of the item carrying `iid` (the flush of a mutated
ORM instance). -/
def replaceItem (db : DBState) (iid : Nat) (updated : Item) : DBState :=
  { db with items := db.items.map (fun i => if i.id == iid then updated else i) }

/-- crud.py `edit_item`: 404 when the id is unknown; otherwise validate
only the resulting (intent, status) pair through
`check_valid_intent_or_status_update` (converting the stored integer
codes back to members first — `Intent(item.intent)` raises `ValueError`
on an unknown code), then apply the update and return 303.  No other
creation-time rule is re-run on the merged item. -/
def edit_item (db : DBState) (item_id : Nat) (item_update : ItemUpdate) :
    Except PyExc (Int × DBState) :=
  match get_item db item_id with
  | none => .ok (404, db)
  | some item =>
      match Intent.fromInt item.intent, Status.fromInt item.status with
      | some ci, some cs =>
          match check_valid_intent_or_status_update ci cs
              item_update.intent item_update.status with
          | .error e => .error (.valueError e)
          | .ok () =>
              .ok (303, replaceItem db item_id (perform_item_update item item_update))
      | _, _ => .error (.valueError "invalid stored enum code")

/-- The body of the per-record loop of crud.py `create_submission`,
threading the pending (uncommitted) session state. -/
def createSubmissionStep (s : DBState) (rc : GradingRecordCreate) :
    Except PyExc DBState := do
  let record : GradingRecord :=
    { id := nextRecordId s
      item_id := rc.item_id
      submission_number := rc.submission_number
      grading_fee := rc.grading_fee
      grade := rc.grade
      cert := rc.cert
      is_cracked := rc.is_cracked }
  match get_item s record.item_id with
  | none => .error (.valueError "Item not found")
  | some linked_item => do
      check_intent linked_item Intent.GRADE
      check_status linked_item Status.STORAGE
      let s := { s with records := s.records ++ [record] }
      let updated := perform_item_update linked_item { status := some Status.SUBMITTED }
      pure (replaceItem s linked_item.id updated)

/-- crud.py `create_submission`: add the `Submission` row, then process
each grading record; any exception rolls the whole batch back (the
caller observes the error and the untouched prior state). -/
def create_submission (db : DBState) (submission_summary : SubmissionCreate)
    (grading_records : List GradingRecordCreate) : Except PyExc DBState :=
  grading_records.foldlM createSubmissionStep
    { db with submissions := db.submissions ++ [submission_summary.toSubmission] }

/-- crud.py `delete_item_by_id`.  The `submissions` relationship of
`Item` carries `passive_deletes=True`, so deleting the item does not
load (or mark deleted) its grading records: the rows disappear through
the database-level `ON DELETE CASCADE` of `grading_record.item_id`.
Consequently the `before_flush` hook `delete_empty_submissions`
(orm_events.py), which only inspects `GradingRecord` instances inside
`session.deleted`, sees none, and the submissions of the deleted
records are left in place even when they become empty. -/
def delete_item_by_id (db : DBState) (item_id : Nat) : Bool × DBState :=
  match get_item db item_id with
  | none => (false, db)
  | some _ =>
      (true,
        { db with
          items := db.items.filter (fun it => it.id ≠ item_id)
          records := db.records.filter (fun r => r.item_id ≠ item_id) })

/-- crud.py `delete_grading_record_by_id`: flip the linked item back to
STORAGE through `perform_item_update`, delete the record, and — via the
`before_flush` hook `delete_empty_submissions` of orm_events.py, which
does see this explicitly deleted record in `session.deleted` — delete
the parent submission when no sibling record remains. -/
def delete_grading_record_by_id (db : DBState) (record_id : Nat) :
    Except PyExc (Bool × DBState) :=
  match db.records.find? (fun r => r.id == record_id) with
  | none => .ok (false, db)
  | some record =>
      match get_item db record.item_id with
      | none => .error (.valueError "Item not found")
      | some linked_item =>
          let updated := perform_item_update linked_item { status := some Status.STORAGE }
          let db := replaceItem db linked_item.id updated
          let remaining := db.records.filter
            (fun gr => gr.submission_number == record.submission_number && gr.id ≠ record.id)
          let subs :=
            if remaining.isEmpty then
              db.submissions.filter (fun s => s.submission_number ≠ record.submission_number)
            else db.submissions
          .ok (true,
            { db with
              submissions := subs
              records := db.records.filter (fun r => r.id ≠ record.id) })

/-! ## Search (crud.py `search_for_items` / `build_search_filters`) -/

/-- The grading records loaded for an item (its `submissions`
relationship / the correlated subqueries of the SQL expressions). -/
def recsOf (db : DBState) (item_id : Nat) : List GradingRecord :=
  db.records.filter (fun r => r.item_id == item_id)

/-- A pushed-down predicate: a SQLAlchemy column (or hybrid-expression)
comparison, evaluated against the store (for correlated subqueries) and
a candidate row. -/
abbrev SqlFilter := DBState → Item → Bool

/-- A `column >= value` bound on a nullable column: not true on `NULL`. -/
def sqlGe {α : Type} [LE α] [DecidableRel (α := α) (· ≤ ·)]
    (column : Option α) (value : α) : Bool :=
  match column with
  | some x => decide (value ≤ x)
  | none => false

/-- A `column <= value` bound on a nullable column: not true on `NULL`. -/
def sqlLe {α : Type} [LE α] [DecidableRel (α := α) (· ≤ ·)]
    (column : Option α) (value : α) : Bool :=
  match column with
  | some x => decide (x ≤ value)
  | none => false

/-- A `column == value` equality on a nullable column: not true on `NULL`. -/
def sqlEq {α : Type} [DecidableEq α] (column : Option α) (value : α) : Bool :=
  match column with
  | some x => decide (x = value)
  | none => false

/-- An entry of the `post_filters` list of `build_search_filters` — a
(field name, value) pair kept for in-memory filtering after the store
query. -/
inductive PostFilter where
  | qualifiers : List Qualifier → PostFilter
  | cracked_from : Int → PostFilter
  | grading_company : Int → PostFilter
deriving Repr, DecidableEq

/-- Emit one pushed-down filter when the search field is set. -/
def onSome {α : Type} (o : Option α) (f : α → SqlFilter) : List SqlFilter :=
  match o with
  | none => []
  | some v => [f v]

/-- crud.py `build_search_filters`, iterating the set search fields in
declaration order: `qualifiers`, `cracked_from` and `grading_company`
are routed to `post_filters`; `_min`/`_max` fields become range
predicates and the rest equality predicates on the column (for
`total_cost`, `return_jpy`, `net_jpy`, `net_percent`, `grade` and
`cert`, `getattr(Item, field)` denotes the hybrid SQL expression).
`ItemSearch` has no `submission_number` field, so the
`NotImplementedError` branch of the source is unreachable. -/
def build_search_filters (p : ItemSearch) : List SqlFilter × List PostFilter :=
  let filters : List SqlFilter :=
    onSome p.name (fun v _ it => it.name == v) ++
    onSome p.set_name (fun v _ it => it.set_name == v) ++
    onSome p.category (fun v _ it => it.category == v) ++
    onSome p.language (fun v _ it => it.language == v) ++
    onSome p.details (fun v _ it => sqlEq it.details v) ++
    onSome p.purchase_date_min (fun v _ it => decide (v ≤ it.purchase_date)) ++
    onSome p.purchase_date_max (fun v _ it => decide (it.purchase_date ≤ v)) ++
    onSome p.purchase_price_min (fun v _ it => decide (v ≤ it.purchase_price)) ++
    onSome p.purchase_price_max (fun v _ it => decide (it.purchase_price ≤ v)) ++
    onSome p.status (fun v _ it => it.status == v) ++
    onSome p.intent (fun v _ it => it.intent == v) ++
    onSome p.grade (fun v db it => sqlEq (ItemSql.grade it (recsOf db it.id)) v) ++
    onSome p.cert (fun v db it => sqlEq (ItemSql.cert it (recsOf db it.id)) v) ++
    onSome p.list_type (fun v _ it => it.list_type == v) ++
    onSome p.list_date_min (fun v _ it => sqlGe it.list_date v) ++
    onSome p.list_date_max (fun v _ it => sqlLe it.list_date v) ++
    onSome p.sale_total_min (fun v _ it => sqlGe it.sale_total v) ++
    onSome p.sale_total_max (fun v _ it => sqlLe it.sale_total v) ++
    onSome p.sale_date_min (fun v _ it => sqlGe it.sale_date v) ++
    onSome p.sale_date_max (fun v _ it => sqlLe it.sale_date v) ++
    onSome p.group_discount (fun v _ it => it.group_discount == v) ++
    onSome p.object_variant (fun v _ it => it.object_variant == v) ++
    onSome p.audit_target (fun v _ it => it.audit_target == v) ++
    onSome p.total_cost_min (fun v db it => sqlGe (ItemSql.total_cost it (recsOf db it.id)) v) ++
    onSome p.total_cost_max (fun v db it => sqlLe (ItemSql.total_cost it (recsOf db it.id)) v) ++
    onSome p.return_jpy_min (fun v _ it => sqlGe (ItemSql.return_jpy it) v) ++
    onSome p.return_jpy_max (fun v _ it => sqlLe (ItemSql.return_jpy it) v) ++
    onSome p.net_jpy_min (fun v db it => sqlGe (ItemSql.net_jpy it (recsOf db it.id)) v) ++
    onSome p.net_jpy_max (fun v db it => sqlLe (ItemSql.net_jpy it (recsOf db it.id)) v) ++
    onSome p.net_percent_min
      (fun v db it => sqlGe (ItemSql.net_percent it (recsOf db it.id)) v) ++
    onSome p.net_percent_max
      (fun v db it => sqlLe (ItemSql.net_percent it (recsOf db it.id)) v)
  let post_filters : List PostFilter :=
    (if p.qualifiers.isEmpty then [] else [PostFilter.qualifiers p.qualifiers]) ++
    (match p.cracked_from with
      | none => []
      | some v => [PostFilter.cracked_from v]) ++
    (match p.grading_company with
      | none => []
      | some v => [PostFilter.grading_company v])
  (filters, post_filters)

/-- One pass of the post-filtering loop of `search_for_items`: the loop
handles only the `qualifiers` and `grading_company` fields (the
`grading_company` comparison evaluates the in-memory hybrid property of
each result row); any other routed field — `cracked_from` — falls
through every branch and leaves the results untouched. -/
def applyPostFilter (db : DBState) (results : List Item) : PostFilter → List Item
  | .qualifiers qs =>
      results.filter (fun it => qs.all (fun q => q ∈ it.qualifiers))
  | .grading_company v =>
      results.filter
        (fun it => Item.grading_company it (recsOf db it.id) db.submissions == some v)
  | .cracked_from _ => results

/-- crud.py `search_for_items`: push the translatable filters into the
store query (their conjunction; no filters selects every row), then run
the post-filtering loop. -/
def search_for_items (db : DBState) (search_params : ItemSearch) : List Item :=
  let fp := build_search_filters search_params
  let results := db.items.filter (fun it => fp.1.all (fun f => f db it))
  fp.2.foldl (applyPostFilter db) results

/-! ## Concrete store contents used by the individual claims -/

/-- An item without grading records (in-memory `total_cost` is
defined, the SQL `SUM` subquery of `total_grading_fees` is `NULL`). -/
def c1itemA : Item :=
  { id := 1, name := "alpha", set_name := "base", category := 0, language := 0
    qualifiers := [], purchase_date := 0, purchase_price := 1000
    status := Status.STORAGE.toInt, intent := Intent.KEEP.toInt
    import_fee := 0, purchase_grading_company := 0
    list_type := ListingType.NO_LIST.toInt, object_variant := 0 }

/-- The sold item of the concrete scenario of the spec: purchase price
10, one grading fee of 100, sale total 9.64, shipping 3.21, sale fee
2.87, exchange rate 140.55. -/
def c1itemB : Item :=
  { id := 2, name := "beta", set_name := "base", category := 0, language := 0
    qualifiers := [], purchase_date := 0, purchase_price := 10
    status := Status.CLOSED.toInt, intent := Intent.SELL.toInt
    import_fee := 0, purchase_grading_company := 0
    list_price := some 9, list_type := ListingType.FIXED.toInt, list_date := some 1
    sale_total := some (241/25), sale_date := some 2
    shipping := some (321/100), sale_fee := some (287/100)
    usd_to_jpy_rate := some (2811/20), object_variant := 0 }

/-- The single grading record of `c1itemB`, invoiced at 100. -/
def c1rec : GradingRecord :=
  { id := 1, item_id := 2, submission_number := 1, grading_fee := some 100
    grade := some 10, cert := some 5, is_cracked := false }

/-- An item ready for submission: intent GRADE, status STORAGE. -/
def c2item : Item :=
  { id := 1, name := "gamma", set_name := "base", category := 0, language := 0
    qualifiers := [], purchase_date := 0, purchase_price := 100
    status := Status.STORAGE.toInt, intent := Intent.GRADE.toInt
    import_fee := 0, purchase_grading_company := 0
    list_type := ListingType.NO_LIST.toInt, object_variant := 0 }

/-- A store holding only `c2item`. -/
def c2db : DBState := { items := [c2item], submissions := [], records := [] }

/-- The submission summary of the C2 batch. -/
def c2sub : SubmissionCreate :=
  { submission_number := 1, submission_company := 1, submission_date := 0 }

/-- The single-record batch entry pointing at `c2item`. -/
def c2rc : GradingRecordCreate := { item_id := 1, submission_number := 1 }

/-- A LISTED candidate whose intent KEEP does not allow LISTED. -/
def c3item : ItemBase :=
  { name := "delta", set_name := "base", category := 0, language := 0
    qualifiers := [], purchase_date := 100, purchase_price := 100
    status := Status.LISTED, intent := Intent.KEEP
    import_fee := 0, purchase_grading_company := 0
    list_price := some 500, list_type := ListingType.FIXED, list_date := some 101
    object_variant := 0 }

/-- An empty store. -/
def c3db : DBState := { items := [], submissions := [], records := [] }

/-- A stored item with intent SELL, status STORAGE and every sale field
null. -/
def c4item : Item :=
  { id := 1, name := "epsilon", set_name := "base", category := 0, language := 0
    qualifiers := [], purchase_date := 0, purchase_price := 100
    status := Status.STORAGE.toInt, intent := Intent.SELL.toInt
    import_fee := 0, purchase_grading_company := 0
    list_type := ListingType.NO_LIST.toInt, object_variant := 0 }

/-- A store holding only `c4item`. -/
def c4db : DBState := { items := [c4item], submissions := [], records := [] }

/-- The partial update flipping only the status to CLOSED. -/
def c4update : ItemUpdate := { status := some Status.CLOSED }

/-- The merged candidate resulting from applying `c4update` to `c4item`,
spelt as an `ItemBase` so the creation-time rules can be run on it. -/
def c4merged : ItemBase :=
  { name := "epsilon", set_name := "base", category := 0, language := 0
    qualifiers := [], purchase_date := 0, purchase_price := 100
    status := Status.CLOSED, intent := Intent.SELL
    import_fee := 0, purchase_grading_company := 0
    list_type := ListingType.NO_LIST, object_variant := 0 }

/-- An item with zero total cost and no sale data. -/
def c5item : Item :=
  { id := 1, name := "zeta", set_name := "base", category := 0, language := 0
    qualifiers := [], purchase_date := 0, purchase_price := 0
    status := Status.STORAGE.toInt, intent := Intent.KEEP.toInt
    import_fee := 0, purchase_grading_company := 0
    list_type := ListingType.NO_LIST.toInt, object_variant := 0 }

/-- An item graded at purchase (purchase_grade 5, purchase_cert 77). -/
def c6item : Item :=
  { id := 1, name := "eta", set_name := "base", category := 0, language := 0
    qualifiers := [], purchase_date := 0, purchase_price := 100
    status := Status.STORAGE.toInt, intent := Intent.GRADE.toInt
    import_fee := 0, purchase_grading_company := 1
    purchase_cert := some 77, purchase_grade := some 5
    list_type := ListingType.NO_LIST.toInt, object_variant := 0 }

/-- A not-yet-returned grading record of `c6item`: not cracked, grade
and cert still null. -/
def c6rec : GradingRecord :=
  { id := 1, item_id := 1, submission_number := 1, grading_fee := some 10
    grade := none, cert := none, is_cracked := false }

/-- A SUBMITTED candidate carrying non-null purchase grading data. -/
def c7item : ItemBase :=
  { name := "theta", set_name := "base", category := 0, language := 0
    qualifiers := [], purchase_date := 100, purchase_price := 100
    status := Status.SUBMITTED, intent := Intent.GRADE
    import_fee := 0, purchase_grading_company := 1
    purchase_cert := some 123, purchase_grade := some 10
    list_type := ListingType.NO_LIST, object_variant := 0 }

/-- The item deleted in the C8 scenario, linked into submission 1. -/
def c8item : Item :=
  { id := 1, name := "iota", set_name := "base", category := 0, language := 0
    qualifiers := [], purchase_date := 0, purchase_price := 100
    status := Status.SUBMITTED.toInt, intent := Intent.GRADE.toInt
    import_fee := 0, purchase_grading_company := 0
    list_type := ListingType.NO_LIST.toInt, object_variant := 0 }

/-- Submission 1, owning only the record of `c8item`. -/
def c8sub : Submission :=
  { submission_number := 1, submission_company := 1, submission_date := 0 }

/-- The grading record linking `c8item` to submission 1. -/
def c8rec : GradingRecord :=
  { id := 1, item_id := 1, submission_number := 1, grading_fee := some 10
    grade := none, cert := none, is_cracked := false }

/-- The store before the C8 deletion. -/
def c8db : DBState := { items := [c8item], submissions := [c8sub], records := [c8rec] }

/-- The store after `delete_item_by_id c8db 1`: the item and its record
are gone, the now-empty submission 1 survives. -/
def c8dbAfter : DBState := { items := [], submissions := [c8sub], records := [] }

instance {e a : Type} [DecidableEq e] [DecidableEq a] : DecidableEq (Except e a)
  | .ok x, .ok y =>
      if h : x = y then .isTrue (by rw [h]) else .isFalse (by simp [h])
  | .ok _, .error _ => .isFalse (by simp)
  | .error _, .ok _ => .isFalse (by simp)
  | .error x, .error y =>
      if h : x = y then .isTrue (by rw [h]) else .isFalse (by simp [h])

/-! ## Helper lemmas about the latest-submission fold -/

/-- Folding `latestStep` over records whose submission numbers do not
exceed the accumulator keeps the accumulator (Python `max` keeps the
current maximum on ties). -/
theorem latestStep_keep (a : GradingRecord) :
    ∀ recs : List GradingRecord,
    (∀ r ∈ recs, r.submission_number ≤ a.submission_number) →
    recs.foldl latestStep (some a) = some a := by
  intro recs
  induction recs with
  | nil => intro _; rfl
  | cons r rs ih =>
      intro h
      have hr := h r (List.mem_cons_self r rs)
      have hstep : latestStep (some a) r = some a := by
        simp only [latestStep]
        rw [if_neg (Nat.not_lt.mpr hr)]
      rw [List.foldl_cons, hstep]
      exact ih (fun x hx => h x (List.mem_cons_of_mem r hx))

/-- A record produced by the `latestStep` fold is either the initial
accumulator or a member of the list. -/
theorem foldl_latestStep_mem :
    ∀ (recs : List GradingRecord) (acc : Option GradingRecord) (b : GradingRecord),
    recs.foldl latestStep acc = some b → acc = some b ∨ b ∈ recs := by
  intro recs
  induction recs with
  | nil => intro acc b h; exact .inl h
  | cons r rs ih =>
      intro acc b h
      rw [List.foldl_cons] at h
      rcases ih (latestStep acc r) b h with h1 | h2
      · cases acc with
        | none =>
            simp only [latestStep] at h1
            have hrb : r = b := Option.some_inj.mp h1
            subst hrb
            exact .inr (List.mem_cons_self r rs)
        | some m =>
            simp only [latestStep] at h1
            by_cases hlt : m.submission_number < r.submission_number
            · rw [if_pos hlt] at h1
              have hrb : r = b := Option.some_inj.mp h1
              subst hrb
              exact .inr (List.mem_cons_self r rs)
            · rw [if_neg hlt] at h1
              exact .inl h1
      · exact .inr (List.mem_cons_of_mem r h2)

/-- A status-check result of the validation pipeline equals `.ok ()`
exactly when the guarding condition holds. -/
theorem exceptIfOkIff {msg : String} {b : Bool} :
    ((if b then (Except.ok () : Except String Unit) else .error msg) = .ok ()) ↔
      b = true := by
  cases b <;> simp

/-- The Python `max(..., key=submission_number, default=None)` fold picks
the record with the strictly highest submission number (the uniqueness
hypothesis is the documented precondition that submission numbers are
unique per item). -/
theorem latestSubmission_eq_of_max (recs : List GradingRecord) (l : GradingRecord)
    (hmem : l ∈ recs)
    (hmax : ∀ r ∈ recs, r.submission_number ≤ l.submission_number)
    (huniq : ∀ r ∈ recs, r.submission_number = l.submission_number → r = l) :
    latestSubmission recs = some l := by
  obtain ⟨s, t, rfl⟩ := List.append_of_mem hmem
  unfold latestSubmission
  rw [List.foldl_append, List.foldl_cons]
  have hstep : latestStep (List.foldl latestStep none s) l = some l := by
    cases hacc : List.foldl latestStep none s with
    | none => rfl
    | some b =>
        rcases foldl_latestStep_mem s none b hacc with h1 | h2
        · exact absurd h1 (by simp)
        · have hb : b ∈ s ++ l :: t := List.mem_append_left _ h2
          have hble := hmax b hb
          simp only [latestStep]
          by_cases hlt : b.submission_number < l.submission_number
          · rw [if_pos hlt]
          · rw [if_neg hlt]
            rw [huniq b hb (Nat.le_antisymm hble (Nat.not_lt.mp hlt))]
  rw [hstep]
  exact latestStep_keep l t
    (fun r hr => hmax r (List.mem_append_right _ (List.mem_cons_of_mem l hr)))

/-! ## Claim theorems -/

/-- C1.  The claim states that for every item the in-memory and the
query-engine evaluations of each derived value agree.  They do not: on
an item with no grading records the in-memory `total_cost` is defined
while the SQL `SUM` subquery is `NULL`, and on the sold item of the
concrete spec scenario the in-memory `net_percent` is 354.55 while the
SQL expression — which lacks the `100 *` factor of the in-memory
formula — yields 3.55. -/
theorem c1_derived_value_divergence :
    Item.total_cost c1itemA [] = 1000 ∧
    ItemSql.total_cost c1itemA [] = none ∧
    Item.net_percent c1itemB [c1rec] = some (7091/20) ∧
    ItemSql.net_percent c1itemB [c1rec] = some (71/20) := by
  refine ⟨by decide, by decide, ?_, ?_⟩
  · have h1 : Item.total_fees c1itemB = some (152/25) := by
      unfold Item.total_fees c1itemB
      norm_num [pyRound2, pyRoundInt]
    have h2 : Item.return_usd c1itemB = some (89/25) := by
      unfold Item.return_usd
      rw [h1]
      unfold c1itemB
      norm_num [pyRound2, pyRoundInt]
    have h3 : Item.return_jpy c1itemB = some 500 := by
      unfold Item.return_jpy
      rw [h2]
      unfold c1itemB
      norm_num [pyRoundInt]
    have h4 : Item.total_cost c1itemB [c1rec] = 110 := by decide
    have h5 : Item.net_jpy c1itemB [c1rec] = some 390 := by
      unfold Item.net_jpy
      rw [h3, h4]
      norm_num
    unfold Item.net_percent
    rw [h5, h4]
    norm_num [pyRound2, pyRoundInt]
  · have h1 : ItemSql.total_fees c1itemB = some (152/25) := by
      unfold ItemSql.total_fees c1itemB
      norm_num [sqlRound2, sqlRoundInt]
    have h2 : ItemSql.return_usd c1itemB = some (89/25) := by
      unfold ItemSql.return_usd
      rw [h1]
      unfold c1itemB
      norm_num [sqlRound2, sqlRoundInt]
    have h3 : ItemSql.return_jpy c1itemB = some 500 := by
      unfold ItemSql.return_jpy
      rw [h2]
      unfold c1itemB
      norm_num [sqlRoundInt]
    have h4 : ItemSql.total_cost c1itemB [c1rec] = some 110 := by decide
    have h5 : ItemSql.net_jpy c1itemB [c1rec] = some 390 := by
      unfold ItemSql.net_jpy
      rw [h3, h4]
      norm_num
    unfold ItemSql.net_percent
    rw [h5, h4]
    norm_num [sqlRound2, sqlRoundInt]

/-- C2.  For an item with intent GRADE and status STORAGE the claim
promises a successful submission; instead `create_submission` always
raises: `check_intent` compares the raw stored integer against the
`Intent` member (never equal for a plain Enum) and then crashes with an
`AttributeError` while formatting the message, rolling the batch back. -/
theorem c2_create_submission_always_raises :
    c2item.intent = Intent.GRADE.toInt ∧
    c2item.status = Status.STORAGE.toInt ∧
    create_submission c2db c2sub [c2rc] =
      .error (.attributeError "int object has no attribute name") :=
  ⟨rfl, rfl, by decide⟩

/-- C3 counterexample.  A candidate with intent KEEP and status LISTED
— a pair outside `Intent.allowed_statuses` — passes the whole creation
validation pipeline and is persisted by `create_item`. -/
theorem c3_creation_accepts_incompatible_intent :
    ItemBase.validate c3item = .ok () ∧
    c3item.status = Status.LISTED ∧
    c3item.intent = Intent.KEEP ∧
    Status.LISTED ∉ Intent.KEEP.allowed_statuses ∧
    (create_item c3db c3item).1.items = [ItemBase.toItem c3item 1] :=
  ⟨rfl, rfl, rfl, by decide, rfl⟩

/-- C3 amended.  Creation-time validation never consults the intent:
replacing the intent of any candidate leaves the validation outcome
unchanged, so no candidate is rejected for a status outside
`intent.allowed_statuses` (that pair is checked only on update). -/
theorem c3_creation_validation_ignores_intent :
    ∀ (c : ItemBase) (i : Intent),
    ItemBase.validate { c with intent := i } = ItemBase.validate c :=
  fun _ _ => rfl

/-- C4 counterexample.  Editing the STORAGE item `c4item` with a bare
status flip to CLOSED succeeds (303) although the merged item violates
two creation-time rules: every CLOSED-required sale field is null and
its listing type is NO_LIST. -/
theorem c4_edit_item_accepts_invalid_merge :
    edit_item c4db 1 c4update =
      .ok (303, replaceItem c4db 1 (perform_item_update c4item c4update)) ∧
    (perform_item_update c4item c4update).status = Status.CLOSED.toInt ∧
    (perform_item_update c4item c4update).sale_total = none ∧
    "sale_total" ∈ Status.CLOSED.required_fields ∧
    c4merged.status = Status.CLOSED ∧
    c4merged.sale_total = none ∧
    ItemBase.check_required_fields_based_on_status c4merged =
      .error ("Status requires the following missing fields: " ++
        String.intercalate ", "
          ["sale_total", "sale_date", "shipping", "sale_fee", "usd_to_jpy_rate"]) ∧
    ItemBase.appropriate_listing_type c4merged =
      .error "Item cannot have list_type of NO_LIST if listed or sold" :=
  ⟨rfl, rfl, rfl, by decide, rfl, rfl, rfl, rfl⟩

/-- C4 amended.  `edit_item` validates only the resulting
(intent, status) pair — resolving an unsupplied side against the
current item — and, when that check passes, applies the merged update
unconditionally, re-running none of the other creation-time rules. -/
theorem c4_edit_item_checks_only_intent_status_pair :
    ∀ (db : DBState) (item_id : Nat) (u : ItemUpdate) (it : Item)
      (ci : Intent) (cs : Status),
    get_item db item_id = some it →
    Intent.fromInt it.intent = some ci →
    Status.fromInt it.status = some cs →
    check_valid_intent_or_status_update ci cs u.intent u.status = .ok () →
    edit_item db item_id u =
      .ok (303, replaceItem db item_id (perform_item_update it u)) := by
  intro db item_id u it ci cs h1 h2 h3 h4
  simp [edit_item, h1, h2, h3, h4]

/-- C4 witness: the amended theorem applied to the concrete store. -/
theorem c4_edit_item_checks_only_intent_status_pair_witness :
    edit_item c4db 1 c4update =
      .ok (303, replaceItem c4db 1 (perform_item_update c4item c4update)) :=
  c4_edit_item_checks_only_intent_status_pair c4db 1 c4update c4item
    Intent.SELL Status.STORAGE rfl rfl rfl (by decide)

/-- C5 counterexample.  On an item with zero total cost and no sale
data `net_jpy` is null and `net_percent` is null as well — not the 0.0
the claim promises for every zero-cost item. -/
theorem c5_zero_cost_null_net_jpy_gives_null :
    Item.total_cost c5item [] = 0 ∧
    Item.net_jpy c5item [] = none ∧
    Item.net_percent c5item [] = none ∧
    (none : Option ℚ) ≠ some 0 :=
  ⟨by decide, rfl, rfl, by simp⟩

/-- C5 amended.  When `total_cost` is zero, `net_percent` is 0.0 exactly
when `net_jpy` is non-null; when `net_jpy` is null the null wins and
`net_percent` is null. -/
theorem c5_zero_cost_guard :
    ∀ (it : Item) (recs : List GradingRecord),
    Item.total_cost it recs = 0 →
    Item.net_percent it recs = (Item.net_jpy it recs).map (fun _ => 0) := by
  intro it recs h
  unfold Item.net_percent
  cases hn : Item.net_jpy it recs <;> simp [h]

/-- C5 witness: the amended theorem applied to the zero-cost item. -/
theorem c5_zero_cost_guard_witness :
    Item.total_cost c5item [] = 0 ∧
    Item.net_percent c5item [] = (Item.net_jpy c5item []).map (fun _ => 0) :=
  ⟨by decide, c5_zero_cost_guard c5item [] (by decide)⟩

/-- C6 counterexample.  `c6item` has one grading record, not cracked,
whose grade and cert are still null: the derived grade and cert are
null — they do not fall back to the non-null `purchase_grade` /
`purchase_cert` as the claim asserts. -/
theorem c6_no_fallback_when_record_grade_null :
    Item.grade c6item [c6rec] = none ∧
    Item.cert c6item [c6rec] = none ∧
    c6rec.is_cracked = false ∧
    c6rec.grade = none ∧
    c6rec.cert = none ∧
    c6item.purchase_grade = some 5 ∧
    c6item.purchase_cert = some 77 :=
  ⟨rfl, rfl, rfl, rfl, rfl, rfl, rfl⟩

/-- C6 amended.  The derived grading_company / grade / cert come from
the record with the strictly highest submission number when records
exist: RAW / null / null when that record is cracked, otherwise its own
(possibly null) values, with no fallback to the purchase fields.  The
purchase fields (or RAW / null / null under `cracked_from_purchase`)
apply only when the item has no records at all. -/
theorem c6_latest_record_semantics :
    (∀ (it : Item) (subs : List Submission),
      Item.grading_company it [] subs =
        (if it.cracked_from_purchase then some GradingCompanyRAW
         else some it.purchase_grading_company) ∧
      Item.grade it [] =
        (if it.cracked_from_purchase then none else it.purchase_grade) ∧
      Item.cert it [] =
        (if it.cracked_from_purchase then none else it.purchase_cert)) ∧
    (∀ (it : Item) (recs : List GradingRecord) (subs : List Submission)
      (l : GradingRecord),
      l ∈ recs →
      (∀ r ∈ recs, r.submission_number ≤ l.submission_number) →
      (∀ r ∈ recs, r.submission_number = l.submission_number → r = l) →
      Item.grading_company it recs subs =
        (if l.is_cracked then some GradingCompanyRAW
         else (subs.find? (fun s => s.submission_number == l.submission_number)).map
           (·.submission_company)) ∧
      Item.grade it recs = (if l.is_cracked then none else l.grade) ∧
      Item.cert it recs = (if l.is_cracked then none else l.cert)) := by
  constructor
  · intro it subs
    exact ⟨rfl, rfl, rfl⟩
  · intro it recs subs l hmem hmax huniq
    have hl := latestSubmission_eq_of_max recs l hmem hmax huniq
    unfold Item.grading_company Item.grade Item.cert
    rw [hl]
    exact ⟨rfl, rfl, rfl⟩

/-- C6 witness: the amended theorem applied to the concrete item with
its single record. -/
theorem c6_latest_record_semantics_witness :
    Item.grade c6item [c6rec] = (if c6rec.is_cracked then none else c6rec.grade) ∧
    Item.cert c6item [c6rec] = (if c6rec.is_cracked then none else c6rec.cert) := by
  have hmem : c6rec ∈ [c6rec] := List.mem_singleton.mpr rfl
  have hmax : ∀ r ∈ [c6rec], r.submission_number ≤ c6rec.submission_number := by
    intro r hr
    rw [List.mem_singleton.mp hr]
  have huniq :
      ∀ r ∈ [c6rec], r.submission_number = c6rec.submission_number → r = c6rec := by
    intro r hr _
    exact List.mem_singleton.mp hr
  have h := c6_latest_record_semantics.2 c6item [c6rec] [] c6rec hmem hmax huniq
  exact ⟨h.2.1, h.2.2⟩

/-- C7 counterexample.  `required_to_be_null` for SUBMITTED contains no
graded field, and the SUBMITTED candidate `c7item`, carrying non-null
`purchase_grade` and `purchase_cert`, passes validation. -/
theorem c7_submitted_graded_fields_not_required_null :
    "purchase_grade" ∉ Status.SUBMITTED.required_to_be_null ∧
    "purchase_cert" ∉ Status.SUBMITTED.required_to_be_null ∧
    c7item.status = Status.SUBMITTED ∧
    c7item.purchase_grade = some 10 ∧
    c7item.purchase_cert = some 123 ∧
    ItemBase.validate c7item = .ok () :=
  ⟨by decide, by decide, rfl, rfl, rfl, rfl⟩

/-- C7 amended.  SUBMITTED requires exactly the listing fields
(list_price, list_date) and the sale fields to be null — the same set
as STORAGE / VAULT / ORDER, with no graded fields — and the null-field
check on a SUBMITTED candidate passes precisely when those seven
columns are all null. -/
theorem c7_submitted_required_null_fields :
    Status.SUBMITTED.required_to_be_null =
      ["list_price", "list_date", "sale_total", "sale_date", "shipping",
       "sale_fee", "usd_to_jpy_rate"] ∧
    ∀ c : ItemBase, c.status = Status.SUBMITTED →
      (ItemBase.check_required_null_fields_based_on_status c = .ok () ↔
        (c.list_price = none ∧ c.list_date = none ∧ c.sale_total = none ∧
         c.sale_date = none ∧ c.shipping = none ∧ c.sale_fee = none ∧
         c.usd_to_jpy_rate = none)) := by
  refine ⟨rfl, ?_⟩
  intro c h
  unfold ItemBase.check_required_null_fields_based_on_status
  rw [h]
  simp only [exceptIfOkIff]
  simp [Status.required_to_be_null, listing_fields, sale_fields,
    ItemBase.fieldIsNone, List.filter_eq_nil_iff, Option.isNone_iff_eq_none]

/-- C7 witness: the amended theorem applied to the SUBMITTED candidate. -/
theorem c7_submitted_required_null_fields_witness :
    c7item.status = Status.SUBMITTED ∧
    (ItemBase.check_required_null_fields_based_on_status c7item = .ok () ↔
      (c7item.list_price = none ∧ c7item.list_date = none ∧
       c7item.sale_total = none ∧ c7item.sale_date = none ∧
       c7item.shipping = none ∧ c7item.sale_fee = none ∧
       c7item.usd_to_jpy_rate = none)) :=
  ⟨rfl, c7_submitted_required_null_fields.2 c7item rfl⟩

/-- C8.  Deleting an item whose grading record is the only member of a
submission removes the record (database-level cascade) but leaves the
now-empty submission in the store: the `before_flush` hook never sees
the passively deleted record, so the no-orphan-submissions invariant
the claim states is violated by `delete_item_by_id`. -/
theorem c8_delete_item_leaves_orphan_submission :
    delete_item_by_id c8db 1 = (true, c8dbAfter) ∧
    c8dbAfter.submissions = [c8sub] ∧
    c8dbAfter.records = [] :=
  ⟨by decide, rfl, rfl⟩

/-- C9.  `perform_item_update` unconditionally writes the qualifiers of
the update onto the item; an update built without qualifiers (such as
the status flips of create_submission, delete_grading_record_by_id and
edit_grading_record, or a default `ItemUpdate`) carries the empty list,
so the existing qualifiers of the item are erased. -/
theorem c9_perform_item_update_overwrites_qualifiers :
    (∀ (it : Item) (u : ItemUpdate),
      (perform_item_update it u).qualifiers = u.qualifiers) ∧
    (({} : ItemUpdate).qualifiers = []) ∧
    (∀ (it : Item) (s : Status),
      (perform_item_update it { status := some s }).qualifiers = []) :=
  ⟨fun _ _ => rfl, rfl, fun _ _ => rfl⟩

/-- C10.  A search whose `cracked_from` filter is set returns exactly
the results of the identical search without it: the field is routed to
the post-filter list, whose processing loop handles only the
`qualifiers` and `grading_company` entries. -/
theorem c10_cracked_from_filter_ignored :
    ∀ (db : DBState) (p : ItemSearch) (v : Int),
    search_for_items db { p with cracked_from := some v } =
      search_for_items db { p with cracked_from := none } := by
  intro db p v
  have hfil : (build_search_filters { p with cracked_from := some v }).1 =
      (build_search_filters { p with cracked_from := none }).1 := rfl
  have hpost : (build_search_filters { p with cracked_from := some v }).2 =
      (if p.qualifiers.isEmpty then [] else [PostFilter.qualifiers p.qualifiers]) ++
      [PostFilter.cracked_from v] ++
      (match p.grading_company with
        | none => []
        | some w => [PostFilter.grading_company w]) := rfl
  have hpost2 : (build_search_filters { p with cracked_from := none }).2 =
      (if p.qualifiers.isEmpty then [] else [PostFilter.qualifiers p.qualifiers]) ++
      ([] : List PostFilter) ++
      (match p.grading_company with
        | none => []
        | some w => [PostFilter.grading_company w]) := rfl
  simp only [search_for_items]
  rw [hpost, hpost2, hfil]
  simp only [List.foldl_append, List.foldl_cons, List.foldl_nil, applyPostFilter]
